import Mathlib

/-!
Verification development for the matrix-free shape-data precomputation structure of
include/deal.II/matrix_free/shape_info.h (namespace internal::MatrixFreeFunctions).

The header declares the ElementType enumeration, the ShapeInfo record with its data
fields, the reinit entry point together with the two classification checks, and the
inline initializing constructor.  The bodies of reinit and of the two checks live in a
templates file that is not part of this excerpt, so those operations are modelled from
the specification; definitions carrying a doc comment starting with the words
Modelled from the spec make this explicit.  Numbers are modelled by exact rationals,
and the platform-dependent SIMD width by a fixed representative lane count.
-/

namespace MatrixFreeVerify

/-- Number of SIMD lanes of the vectorized storage primitive.  The width is platform
dependent in the original; a fixed representative width is used here. -/
def n_lanes : Nat := 4

/-- Model of the VectorizedArray storage primitive: one rational value per SIMD lane. -/
def VectorizedArray : Type := Fin n_lanes → ℚ

instance : DecidableEq VectorizedArray :=
  inferInstanceAs (DecidableEq (Fin n_lanes → ℚ))

/-- Broadcast of one scalar across all SIMD lanes. -/
def broadcast (x : ℚ) : VectorizedArray := fun _ => x

/-- First SIMD lane, used to read the scalar content of a broadcast entry. -/
def lane0 : Fin n_lanes := ⟨0, Nat.succ_pos 3⟩

/-- The element classification enumeration of shape_info.h lines 41-79, in declaration
order (collocation, hermite, symmetric, general, truncated, symmetric plus constant). -/
inductive ElementType
| tensor_symmetric_collocation
| tensor_symmetric_hermite
| tensor_symmetric
| tensor_general
| truncated_tensor
| tensor_symmetric_plus_dg0
deriving DecidableEq

/-- Modelled from the spec: the fixed floating-point tolerance used by the symmetry,
hermite and collocation checks.  The excerpt leaves the concrete value unspecified
(design note section 9); any fixed positive value realizes the stated properties. -/
def tol : ℚ := 1 / 1000000000000

/-- Closeness of two rationals within the fixed tolerance. -/
def near (a b : ℚ) : Prop := a - b ≤ tol ∧ b - a ≤ tol

instance (a b : ℚ) : Decidable (near a b) :=
  inferInstanceAs (Decidable (_ ∧ _))

/-- Modelled from the spec (section 6): the scalar one-dimensional base element.  It
supplies the polynomial degree, evaluation of the i-th shape function and its first and
second derivative at an arbitrary point of the unit interval, the structural
tensor-product and truncated-tensor facts, and its declared total degree-of-freedom
count in dim dimensions (used by the constant-augmentation size check). -/
structure BaseElement where
  degree : Nat
  is_tensor_product : Bool
  is_truncated : Bool
  dofs_total : Nat
  shape_value : Nat → ℚ → ℚ
  shape_grad : Nat → ℚ → ℚ
  shape_hess : Nat → ℚ → ℚ

/-- Modelled from the spec (section 6): the dimensioned, possibly composed finite
element.  It exposes the list of scalar base elements, the number of vector
components, the native-to-hierarchic DoF index mapping, and the
hierarchic-to-lexicographic tensor-product mapping whose concrete construction the
excerpt does not specify. -/
structure FiniteElement where
  bases : List BaseElement
  n_components : Nat
  native_to_hierarchic : List Nat
  hierarchic_to_lex : List Nat

/-- Modelled from the spec (section 4.2): the symmetry check of
ShapeInfo::check_1d_shapes_symmetric.  For every index pair the value table must be
invariant and the gradient table anti-invariant under simultaneous reversal of both
indices, within the fixed tolerance. -/
def check_1d_shapes_symmetric (N Q : Nat) (v g : Nat → Nat → ℚ) : Bool :=
  decide (∀ i < N, ∀ j < Q,
    near (v i j) (v (N - 1 - i) (Q - 1 - j)) ∧ near (g i j) (-(g (N - 1 - i) (Q - 1 - j))))

/-- Modelled from the spec (section 4.3): the collocation check of
ShapeInfo::check_1d_shapes_collocation.  True iff the value table is square and equals
the identity matrix (Kronecker delta) within the fixed tolerance. -/
def check_1d_shapes_collocation (N Q : Nat) (v : Nat → Nat → ℚ) : Bool :=
  decide (N = Q) &&
    decide (∀ i < N, ∀ j < Q, near (v i j) (if i = j then 1 else 0))

/-- Modelled from the spec (section 4.2): the Hermite end-point identity refining plain
symmetry, with the standard C1 Hermite node pattern at the two interval endpoints. -/
def check_1d_shapes_hermite (N : Nat) (base : BaseElement) : Bool :=
  decide (2 ≤ N) &&
    decide (near (base.shape_value 1 0) 0) &&
    decide (near (base.shape_grad 0 0) 0) &&
    decide (near (base.shape_value (N - 2) 1) 0) &&
    decide (near (base.shape_grad (N - 1) 1) 0)

/-- The four symmetric classification outcomes, for which the even-odd tables are
populated (spec section 3, invariants). -/
def symmetric_family : List ElementType :=
  [ElementType.tensor_symmetric_collocation, ElementType.tensor_symmetric_hermite,
   ElementType.tensor_symmetric, ElementType.tensor_symmetric_plus_dg0]

/-- Modelled from the spec (sections 4.2 and 4.3): the classification cascade run at
the end of reinit.  Truncated-tensor classification is structural metadata of the base
element; the symmetric refinements (collocation override, constant-augmentation size
check, hermite end-point identity) are examined only after plain symmetry holds. -/
def detected_element_type (dim : Nat) (quad : List ℚ) (base : BaseElement) : ElementType :=
  if base.is_truncated then ElementType.truncated_tensor
  else if check_1d_shapes_symmetric (base.degree + 1) quad.length
      (fun i q => base.shape_value i (quad.getD q 0))
      (fun i q => base.shape_grad i (quad.getD q 0)) then
    if check_1d_shapes_collocation (base.degree + 1) quad.length
        (fun i q => base.shape_value i (quad.getD q 0)) then
      ElementType.tensor_symmetric_collocation
    else if base.dofs_total = (base.degree + 1) ^ dim + 1 then
      ElementType.tensor_symmetric_plus_dg0
    else if check_1d_shapes_hermite (base.degree + 1) base then
      ElementType.tensor_symmetric_hermite
    else ElementType.tensor_symmetric
  else ElementType.tensor_general

/-- Flat scalar storage of a two-index table with the second (quadrature) index
running fastest: entry at flat position i * Q + q holds the table value at (i, q). -/
def table_flat (N Q : Nat) (f : Nat → Nat → ℚ) : List ℚ :=
  (List.range (N * Q)).map (fun idx => f (idx / Q) (idx % Q))

/-- Vectorized storage of a two-index table: the flat scalar layout with every entry
broadcast across all SIMD lanes. -/
def table_flat_vect (N Q : Nat) (f : Nat → Nat → ℚ) : List VectorizedArray :=
  (List.range (N * Q)).map (fun idx => broadcast (f (idx / Q) (idx % Q)))

/-- Number of even rows of the even-odd packing of a table with N rows. -/
def eo_half (N : Nat) : Nat := (N + 1) / 2

/-- Modelled from the spec (section 4.4): the even-odd packed table.  The even part,
row sums under reversal of the first index, occupies the first (N + 1) / 2 rows; the
odd part, the corresponding differences, occupies the remaining N / 2 rows. -/
def eo_encode (N : Nat) (f : Nat → Nat → ℚ) (r q : Nat) : ℚ :=
  if r < eo_half N then f r q + f (N - 1 - r) q
  else f (r - eo_half N) q - f (N - 1 - (r - eo_half N)) q

/-- Re-expansion of an even-odd packed table back to the dense form, the exact inverse
of the packing convention of eo_encode: halved sum and difference of the even and odd
rows, the middle row of an odd-sized table coming from the even part alone. -/
def eo_decode (N : Nat) (p : Nat → Nat → ℚ) (i q : Nat) : ℚ :=
  if i < N / 2 then (p i q + p (eo_half N + i) q) / 2
  else if eo_half N ≤ i then (p (N - 1 - i) q - p (eo_half N + (N - 1 - i)) q) / 2
  else p i q / 2

/-- Flat vectorized storage of the even-odd packed table, rows running over the packed
row index, quadrature index fastest. -/
def eo_flat_vect (N Q : Nat) (f : Nat → Nat → ℚ) : List VectorizedArray :=
  (List.range (N * Q)).map (fun idx => broadcast (eo_encode N f (idx / Q) (idx % Q)))

/-- Linear index of the dim-dimensional lexicographic multi-index obtained from the
(dim - 1)-dimensional face multi-index with linear index m by inserting the fixed
digit v at tensor position d, base n positional arithmetic. -/
def insertDigit (n d v m : Nat) : Nat :=
  (m / n ^ d) * n ^ (d + 1) + v * n ^ d + m % n ^ d

/-- Left inverse of insertDigit: strips the digit at tensor position d again. -/
def removeDigit (n d c : Nat) : Nat :=
  (c / n ^ (d + 1)) * n ^ d + c % n ^ d

/-- Modelled from the spec (section 4.5): the face_indices table.  One row per
reference-cell face, faces ordered per coordinate direction d with the two sides s on
that direction; row entries run over the lexicographic cell DoFs whose tensor index in
the face-normal direction is fixed to the boundary value s * degree, in the order
induced by the remaining tensor directions. -/
def build_face_indices (N dim degree : Nat) : List (List Nat) :=
  (List.range (2 * dim)).map
    (fun f => (List.range (N ^ (dim - 1))).map (insertDigit N (f / 2) ((f % 2) * degree)))

/-- Modelled from the spec (section 4.5): evaluation of the full 1D basis at one fixed
point of the reference interval (the face data uses the endpoints 0 and 1). -/
def face_eval (base : BaseElement) (x : ℚ) : List ℚ :=
  (List.range (base.degree + 1)).map (fun i => base.shape_value i x)

/-- Modelled from the spec (section 4.5): evaluation of the gradients of the full 1D
basis at one fixed point of the reference interval. -/
def face_grad_eval (base : BaseElement) (x : ℚ) : List ℚ :=
  (List.range (base.degree + 1)).map (fun i => base.shape_grad i x)

/-- Modelled from the spec (section 4.5): evaluation of the 1D basis at the quadrature
points mapped into one of the two half-intervals (e = 0 for the left half, e = 1 for
the right half), quadrature index fastest. -/
def subface_eval (base : BaseElement) (quad : List ℚ) (e : ℚ) : List ℚ :=
  (List.range ((base.degree + 1) * quad.length)).map
    (fun idx => base.shape_value (idx / quad.length) ((quad.getD (idx % quad.length) 0 + e) / 2))

/-- Composition of the native-to-hierarchic mapping with the
hierarchic-to-lexicographic mapping, both given as index lists (spec section 4.1). -/
def compose_numbering (l1 l2 : List Nat) : List Nat :=
  l1.map (fun k => l2.getD k 0)

/-- The ShapeInfo record of shape_info.h lines 89-281, field for field.  The two
collocation-space derivative tables are kept for structural fidelity but are left
unpopulated by the model, since no stated property concerns their contents. -/
structure ShapeInfo where
  element_type : ElementType
  shape_values : List VectorizedArray
  shape_gradients : List VectorizedArray
  shape_hessians : List VectorizedArray
  shape_values_eo : List VectorizedArray
  shape_gradients_eo : List VectorizedArray
  shape_hessians_eo : List VectorizedArray
  shape_gradients_collocation_eo : List VectorizedArray
  shape_hessians_collocation_eo : List VectorizedArray
  face_indices : List (List Nat)
  face_value : List (List ℚ)
  face_gradient : List (List ℚ)
  subface_value : List (List ℚ)
  shape_values_number : List ℚ
  shape_gradient_number : List ℚ
  lexicographic_numbering : List Nat
  fe_degree : Nat
  n_q_points_1d : Nat
  n_q_points : Nat
  dofs_per_cell : Nat
  n_q_points_face : Nat
  dofs_per_face : Nat

/-- The state established by the member initializer list of the initializing
constructor (shape_info.h lines 287-303): element_type is tensor_general, all counters
are zero, and every container is empty, before reinit runs. -/
def ShapeInfo.initial : ShapeInfo where
  element_type := ElementType.tensor_general
  shape_values := []
  shape_gradients := []
  shape_hessians := []
  shape_values_eo := []
  shape_gradients_eo := []
  shape_hessians_eo := []
  shape_gradients_collocation_eo := []
  shape_hessians_collocation_eo := []
  face_indices := []
  face_value := []
  face_gradient := []
  subface_value := []
  shape_values_number := []
  shape_gradient_number := []
  lexicographic_numbering := []
  fe_degree := 0
  n_q_points_1d := 0
  n_q_points := 0
  dofs_per_cell := 0
  n_q_points_face := 0
  dofs_per_face := 0

/-- Modelled from the spec (sections 4.1 to 4.5): the successfully initialized record.
Shape values, gradients and hessians of the selected base element are sampled at the
1D quadrature points into the vectorized broadcast layout and the scalar mirrors; the
even-odd tables are populated exactly for the symmetric classification outcomes; face
and subface trace data and the face index table are derived; the metadata counters are
derived from degree, quadrature size and dim. -/
def build_shape_info (dim : Nat) (quad : List ℚ) (fe : FiniteElement)
    (base : BaseElement) : ShapeInfo :=
  let N := base.degree + 1
  let Q := quad.length
  let v := fun i q => base.shape_value i (quad.getD q 0)
  let g := fun i q => base.shape_grad i (quad.getD q 0)
  let hs := fun i q => base.shape_hess i (quad.getD q 0)
  let et := detected_element_type dim quad base
  { element_type := et
    shape_values := table_flat_vect N Q v
    shape_gradients := table_flat_vect N Q g
    shape_hessians := table_flat_vect N Q hs
    shape_values_eo := if et ∈ symmetric_family then eo_flat_vect N Q v else []
    shape_gradients_eo := if et ∈ symmetric_family then eo_flat_vect N Q g else []
    shape_hessians_eo := if et ∈ symmetric_family then eo_flat_vect N Q hs else []
    shape_gradients_collocation_eo := []
    shape_hessians_collocation_eo := []
    face_indices := build_face_indices N dim base.degree
    face_value := [face_eval base 0, face_eval base 1]
    face_gradient := [face_grad_eval base 0, face_grad_eval base 1]
    subface_value := [subface_eval base quad 0, subface_eval base quad 1]
    shape_values_number := table_flat N Q v
    shape_gradient_number := table_flat N Q g
    lexicographic_numbering := compose_numbering fe.native_to_hierarchic fe.hierarchic_to_lex
    fe_degree := base.degree
    n_q_points_1d := Q
    n_q_points := Q ^ dim
    dofs_per_cell := fe.n_components * N ^ dim
    n_q_points_face := Q ^ (dim - 1)
    dofs_per_face := N ^ (dim - 1) }

/-- The construction-time configuration errors (spec section 7): a base element that
is not a 1D tensor product, a base-element selector out of range, an empty quadrature
rule, and violation of the documented assumption (shape_info.h lines 105-116) that the
zeroth shape function evaluates to one at zero. -/
inductive ConfigError
| not_tensor_product
| base_element_out_of_range
| empty_quadrature
| zeroth_shape_not_one
deriving DecidableEq

/-- Modelled from the spec (section 4.1) and the contract of ShapeInfo::reinit
(shape_info.h lines 105-116): initialization of the data fields.  Configuration
errors abort initialization; on success every field of the record is assigned, so the
incoming state does not influence the result. -/
def ShapeInfo.reinit (_self : ShapeInfo) (dim : Nat) (quad : List ℚ)
    (fe : FiniteElement) (base_no : Nat) : Except ConfigError ShapeInfo :=
  match fe.bases[base_no]? with
  | none => Except.error ConfigError.base_element_out_of_range
  | some base =>
    if base.is_tensor_product = false then Except.error ConfigError.not_tensor_product
    else if quad.length = 0 then Except.error ConfigError.empty_quadrature
    else if ¬ near (base.shape_value 0 0) 1 then Except.error ConfigError.zeroth_shape_not_one
    else Except.ok (build_shape_info dim quad fe base)

/-- The initializing constructor (shape_info.h lines 287-303): establish the member
initializer list state, then run reinit on it. -/
def ShapeInfo.construct (dim : Nat) (quad : List ℚ) (fe : FiniteElement)
    (base_no : Nat) : Except ConfigError ShapeInfo :=
  ShapeInfo.initial.reinit dim quad fe base_no

/-- The pairs of one-dimensional scalar non-vectorized face-trace arrays held by the
record: exactly the three two-element array fields face_value, face_gradient and
subface_value of shape_info.h lines 198-214. -/
def scalar_face_trace_pairs (s : ShapeInfo) : List (List (List ℚ)) :=
  [s.face_value, s.face_gradient, s.subface_value]

/-- Scalar shape value stored for shape function i and quadrature point j. -/
def shape_value_entry (s : ShapeInfo) (i j : Nat) : ℚ :=
  s.shape_values_number.getD (i * s.n_q_points_1d + j) 0

/-- Concrete degree-1 Lagrange base element on the unit interval, with nodes at the
two endpoints. -/
def lagrange1 : BaseElement where
  degree := 1
  is_tensor_product := true
  is_truncated := false
  dofs_total := 2
  shape_value := fun i x => if i = 0 then 1 - x else if i = 1 then x else 0
  shape_grad := fun i _ => if i = 0 then -1 else if i = 1 then 1 else 0
  shape_hess := fun _ _ => 0

/-- Concrete scalar finite element built on the degree-1 Lagrange base. -/
def feQ1 : FiniteElement where
  bases := [lagrange1]
  n_components := 1
  native_to_hierarchic := [0, 1]
  hierarchic_to_lex := [0, 1]

/-- Concrete symmetric two-point quadrature whose points differ from the element
nodes, so classification yields the plain symmetric outcome. -/
def quadSym : List ℚ := [1/4, 3/4]

/-- Concrete two-point quadrature collocated with the degree-1 Lagrange nodes. -/
def quadColloc : List ℚ := [0, 1]

/-- Result of constructing shape data for the symmetric example pair. -/
def symResult : ShapeInfo :=
  match ShapeInfo.construct 1 quadSym feQ1 0 with
  | Except.ok s => s
  | Except.error _ => ShapeInfo.initial

/-- Result of constructing shape data for the collocation example pair. -/
def collocResult : ShapeInfo :=
  match ShapeInfo.construct 1 quadColloc feQ1 0 with
  | Except.ok s => s
  | Except.error _ => ShapeInfo.initial

/-- Concrete base element that is not expressible as a 1D tensor product. -/
def simplexBase : BaseElement where
  degree := 1
  is_tensor_product := false
  is_truncated := false
  dofs_total := 3
  shape_value := fun _ _ => 0
  shape_grad := fun _ _ => 0
  shape_hess := fun _ _ => 0

/-- Concrete finite element wrapping the non-tensor-product base element. -/
def feSimplex : FiniteElement where
  bases := [simplexBase]
  n_components := 1
  native_to_hierarchic := [0, 1, 2]
  hierarchic_to_lex := [0, 1, 2]

/-- Concrete tensor-product base element violating the documented assumption that the
zeroth shape function evaluates to one at zero. -/
def badZerothBase : BaseElement where
  degree := 1
  is_tensor_product := true
  is_truncated := false
  dofs_total := 2
  shape_value := fun _ _ => 0
  shape_grad := fun _ _ => 0
  shape_hess := fun _ _ => 0

/-- Concrete finite element wrapping the base element with a bad zeroth shape value. -/
def feBadZeroth : FiniteElement where
  bases := [badZerothBase]
  n_components := 1
  native_to_hierarchic := [0, 1]
  hierarchic_to_lex := [0, 1]

/- ------------------------------------------------------------------ lemmas -/

theorem getD_range_map {α : Type} (f : Nat → α) (n i : Nat) (d : α) (h : i < n) :
    ((List.range n).map f).getD i d = f i := by
  simp [List.getD_eq_getElem?_getD, List.getElem?_range h]

theorem flat_div (Q r q : Nat) (hq : q < Q) : (r * Q + q) / Q = r := by
  rw [Nat.add_comm, Nat.mul_comm, Nat.add_mul_div_left _ _ (by omega : 0 < Q),
    Nat.div_eq_of_lt hq, Nat.zero_add]

theorem flat_mod (Q r q : Nat) (hq : q < Q) : (r * Q + q) % Q = q := by
  rw [Nat.add_comm, Nat.mul_comm, Nat.add_mul_mod_self_left, Nat.mod_eq_of_lt hq]

theorem flat_lt (N Q i q : Nat) (hi : i < N) (hq : q < Q) : i * Q + q < N * Q :=
  calc i * Q + q < i * Q + Q := by omega
  _ = (i + 1) * Q := by ring
  _ ≤ N * Q := Nat.mul_le_mul_right Q hi

theorem table_flat_getD (N Q : Nat) (f : Nat → Nat → ℚ) (i q : Nat)
    (hi : i < N) (hq : q < Q) :
    (table_flat N Q f).getD (i * Q + q) 0 = f i q := by
  unfold table_flat
  rw [getD_range_map _ _ _ _ (flat_lt N Q i q hi hq), flat_div Q i q hq, flat_mod Q i q hq]

theorem table_flat_vect_getD (N Q : Nat) (f : Nat → Nat → ℚ) (i q : Nat)
    (hi : i < N) (hq : q < Q) :
    (table_flat_vect N Q f).getD (i * Q + q) (broadcast 0) = broadcast (f i q) := by
  unfold table_flat_vect
  rw [getD_range_map _ _ _ _ (flat_lt N Q i q hi hq), flat_div Q i q hq, flat_mod Q i q hq]

theorem eo_flat_vect_getD (N Q : Nat) (f : Nat → Nat → ℚ) (r q : Nat)
    (hr : r < N) (hq : q < Q) :
    (eo_flat_vect N Q f).getD (r * Q + q) (broadcast 0) = broadcast (eo_encode N f r q) := by
  unfold eo_flat_vect
  rw [getD_range_map _ _ _ _ (flat_lt N Q r q hr hq), flat_div Q r q hq, flat_mod Q r q hq]

theorem table_flat_vect_length (N Q : Nat) (f : Nat → Nat → ℚ) :
    (table_flat_vect N Q f).length = N * Q := by
  simp [table_flat_vect]

theorem broadcast_apply (x : ℚ) (l : Fin n_lanes) : broadcast x l = x := rfl

theorem eo_encode_lo (N : Nat) (f : Nat → Nat → ℚ) (r q : Nat) (h : r < eo_half N) :
    eo_encode N f r q = f r q + f (N - 1 - r) q := by
  unfold eo_encode; rw [if_pos h]

theorem eo_encode_hi (N : Nat) (f : Nat → Nat → ℚ) (r q : Nat) (h : ¬ r < eo_half N) :
    eo_encode N f r q = f (r - eo_half N) q - f (N - 1 - (r - eo_half N)) q := by
  unfold eo_encode; rw [if_neg h]

theorem eo_round_trip (N : Nat) (f : Nat → Nat → ℚ) (i q : Nat) (hi : i < N) :
    eo_decode N (eo_encode N f) i q = f i q := by
  have hh : eo_half N = (N + 1) / 2 := rfl
  unfold eo_decode
  by_cases h1 : i < N / 2
  · rw [if_pos h1,
      eo_encode_lo N f i q (by rw [hh]; omega),
      eo_encode_hi N f (eo_half N + i) q (by omega),
      show eo_half N + i - eo_half N = i from by omega]
    ring
  · rw [if_neg h1]
    by_cases h2 : eo_half N ≤ i
    · rw [if_pos h2,
        eo_encode_lo N f (N - 1 - i) q (by rw [hh] at h2 ⊢; omega),
        eo_encode_hi N f (eo_half N + (N - 1 - i)) q (by omega),
        show eo_half N + (N - 1 - i) - eo_half N = N - 1 - i from by omega,
        show N - 1 - (N - 1 - i) = i from by omega]
      ring
    · rw [if_neg h2,
        eo_encode_lo N f i q (by omega),
        show N - 1 - i = i from by rw [hh] at h2; omega]
      ring

theorem eo_decode_congr (N : Nat) (p p2 : Nat → Nat → ℚ) (i q : Nat) (hi : i < N)
    (ha : ∀ r, r < N → p r q = p2 r q) : eo_decode N p i q = eo_decode N p2 i q := by
  have hh : eo_half N = (N + 1) / 2 := rfl
  unfold eo_decode
  by_cases h1 : i < N / 2
  · rw [if_pos h1, if_pos h1, ha i (by omega), ha (eo_half N + i) (by rw [hh]; omega)]
  · rw [if_neg h1, if_neg h1]
    by_cases h2 : eo_half N ≤ i
    · rw [if_pos h2, if_pos h2, ha (N - 1 - i) (by omega),
        ha (eo_half N + (N - 1 - i)) (by rw [hh] at h2; omega)]
    · rw [if_neg h2, if_neg h2, ha i hi]

theorem removeDigit_insertDigit (n d v m : Nat) (hn : 0 < n) (hv : v < n) :
    removeDigit n d (insertDigit n d v m) = m := by
  have hp : 0 < n ^ d := Nat.pos_pow_of_pos d hn
  have hps : n ^ (d + 1) = n ^ d * n := pow_succ n d
  have hmod : insertDigit n d v m % n ^ d = m % n ^ d := by
    unfold insertDigit
    rw [hps, show m / n ^ d * (n ^ d * n) + v * n ^ d + m % n ^ d
          = m % n ^ d + (m / n ^ d * n + v) * n ^ d from by ring,
      Nat.add_mul_mod_self_right, Nat.mod_eq_of_lt (Nat.mod_lt m hp)]
  have hdiv : insertDigit n d v m / n ^ (d + 1) = m / n ^ d := by
    unfold insertDigit
    have hmlt : m % n ^ d < n ^ d := Nat.mod_lt m hp
    have hvle : v * n ^ d ≤ (n - 1) * n ^ d := Nat.mul_le_mul_right _ (by omega)
    have hsum : (n - 1) * n ^ d + n ^ d = n ^ (d + 1) := by
      calc (n - 1) * n ^ d + n ^ d = ((n - 1) + 1) * n ^ d := by ring
      _ = n * n ^ d := by rw [Nat.sub_add_cancel hn]
      _ = n ^ d * n := Nat.mul_comm n (n ^ d)
      _ = n ^ (d + 1) := hps.symm
    have hlt : v * n ^ d + m % n ^ d < n ^ (d + 1) := by omega
    rw [show m / n ^ d * n ^ (d + 1) + v * n ^ d + m % n ^ d
          = (v * n ^ d + m % n ^ d) + n ^ (d + 1) * (m / n ^ d) from by ring,
      Nat.add_mul_div_left _ _ (Nat.pos_pow_of_pos (d + 1) hn),
      Nat.div_eq_of_lt hlt, Nat.zero_add]
  unfold removeDigit
  rw [hdiv, hmod, Nat.mul_comm]
  exact Nat.div_add_mod m (n ^ d)

theorem insertDigit_injective (n d v : Nat) (hn : 0 < n) (hv : v < n) :
    Function.Injective (insertDigit n d v) := by
  intro a b h
  calc a = removeDigit n d (insertDigit n d v a) := (removeDigit_insertDigit n d v a hn hv).symm
  _ = removeDigit n d (insertDigit n d v b) := by rw [h]
  _ = b := removeDigit_insertDigit n d v b hn hv

theorem range_map_getD {l : List Nat} {n : Nat} (hl : l.length = n) :
    (List.range n).map (fun k => l.getD k 0) = l := by
  apply List.ext_getElem
  · simp [hl]
  · intro i h1 h2
    simp [List.getD_eq_getElem?_getD, List.getElem?_eq_getElem h2]

theorem compose_numbering_perm (l1 l2 : List Nat) (n : Nat)
    (h1 : List.Perm l1 (List.range n)) (h2 : List.Perm l2 (List.range n)) :
    List.Perm (compose_numbering l1 l2) (List.range n) := by
  have hlen : l2.length = n := by simpa using h2.length_eq
  have hmap : List.Perm (l1.map (fun k => l2.getD k 0))
      ((List.range n).map (fun k => l2.getD k 0)) := h1.map _
  rw [range_map_getD hlen] at hmap
  exact hmap.trans h2

theorem reinit_ok_inv {s0 : ShapeInfo} {dim : Nat} {quad : List ℚ} {fe : FiniteElement}
    {b : Nat} {s : ShapeInfo} (h : s0.reinit dim quad fe b = Except.ok s) :
    ∃ base, fe.bases[b]? = some base ∧ base.is_tensor_product = true ∧
      quad.length ≠ 0 ∧ near (base.shape_value 0 0) 1 ∧
      s = build_shape_info dim quad fe base := by
  unfold ShapeInfo.reinit at h
  cases hb : fe.bases[b]? with
  | none => rw [hb] at h; exact Except.noConfusion h
  | some base =>
    rw [hb] at h
    dsimp only at h
    by_cases h1 : base.is_tensor_product = false
    · rw [if_pos h1] at h; exact Except.noConfusion h
    · rw [if_neg h1] at h
      by_cases h2 : quad.length = 0
      · rw [if_pos h2] at h; exact Except.noConfusion h
      · rw [if_neg h2] at h
        by_cases h3 : ¬ near (base.shape_value 0 0) 1
        · rw [if_pos h3] at h; exact Except.noConfusion h
        · rw [if_neg h3] at h
          injection h with h
          exact ⟨base, rfl, by revert h1; cases base.is_tensor_product <;> simp,
            h2, not_not.mp h3, h.symm⟩

theorem build_element_type (dim : Nat) (quad : List ℚ) (fe : FiniteElement)
    (base : BaseElement) :
    (build_shape_info dim quad fe base).element_type = detected_element_type dim quad base := rfl

theorem build_fe_degree (dim : Nat) (quad : List ℚ) (fe : FiniteElement)
    (base : BaseElement) :
    (build_shape_info dim quad fe base).fe_degree = base.degree := rfl

theorem build_n_q_points_1d (dim : Nat) (quad : List ℚ) (fe : FiniteElement)
    (base : BaseElement) :
    (build_shape_info dim quad fe base).n_q_points_1d = quad.length := rfl

theorem build_dofs_per_face (dim : Nat) (quad : List ℚ) (fe : FiniteElement)
    (base : BaseElement) :
    (build_shape_info dim quad fe base).dofs_per_face = (base.degree + 1) ^ (dim - 1) := rfl

theorem build_dofs_per_cell (dim : Nat) (quad : List ℚ) (fe : FiniteElement)
    (base : BaseElement) :
    (build_shape_info dim quad fe base).dofs_per_cell
      = fe.n_components * (base.degree + 1) ^ dim := rfl

theorem build_shape_values (dim : Nat) (quad : List ℚ) (fe : FiniteElement)
    (base : BaseElement) :
    (build_shape_info dim quad fe base).shape_values
      = table_flat_vect (base.degree + 1) quad.length
          (fun i q => base.shape_value i (quad.getD q 0)) := rfl

theorem build_shape_gradients (dim : Nat) (quad : List ℚ) (fe : FiniteElement)
    (base : BaseElement) :
    (build_shape_info dim quad fe base).shape_gradients
      = table_flat_vect (base.degree + 1) quad.length
          (fun i q => base.shape_grad i (quad.getD q 0)) := rfl

theorem build_shape_hessians (dim : Nat) (quad : List ℚ) (fe : FiniteElement)
    (base : BaseElement) :
    (build_shape_info dim quad fe base).shape_hessians
      = table_flat_vect (base.degree + 1) quad.length
          (fun i q => base.shape_hess i (quad.getD q 0)) := rfl

theorem build_shape_values_number (dim : Nat) (quad : List ℚ) (fe : FiniteElement)
    (base : BaseElement) :
    (build_shape_info dim quad fe base).shape_values_number
      = table_flat (base.degree + 1) quad.length
          (fun i q => base.shape_value i (quad.getD q 0)) := rfl

theorem build_shape_gradient_number (dim : Nat) (quad : List ℚ) (fe : FiniteElement)
    (base : BaseElement) :
    (build_shape_info dim quad fe base).shape_gradient_number
      = table_flat (base.degree + 1) quad.length
          (fun i q => base.shape_grad i (quad.getD q 0)) := rfl

theorem build_shape_values_eo (dim : Nat) (quad : List ℚ) (fe : FiniteElement)
    (base : BaseElement) :
    (build_shape_info dim quad fe base).shape_values_eo
      = if detected_element_type dim quad base ∈ symmetric_family then
          eo_flat_vect (base.degree + 1) quad.length
            (fun i q => base.shape_value i (quad.getD q 0))
        else [] := rfl

theorem build_shape_gradients_eo (dim : Nat) (quad : List ℚ) (fe : FiniteElement)
    (base : BaseElement) :
    (build_shape_info dim quad fe base).shape_gradients_eo
      = if detected_element_type dim quad base ∈ symmetric_family then
          eo_flat_vect (base.degree + 1) quad.length
            (fun i q => base.shape_grad i (quad.getD q 0))
        else [] := rfl

theorem build_shape_hessians_eo (dim : Nat) (quad : List ℚ) (fe : FiniteElement)
    (base : BaseElement) :
    (build_shape_info dim quad fe base).shape_hessians_eo
      = if detected_element_type dim quad base ∈ symmetric_family then
          eo_flat_vect (base.degree + 1) quad.length
            (fun i q => base.shape_hess i (quad.getD q 0))
        else [] := rfl

theorem build_face_indices_eq (dim : Nat) (quad : List ℚ) (fe : FiniteElement)
    (base : BaseElement) :
    (build_shape_info dim quad fe base).face_indices
      = build_face_indices (base.degree + 1) dim base.degree := rfl

theorem build_lexicographic_numbering (dim : Nat) (quad : List ℚ) (fe : FiniteElement)
    (base : BaseElement) :
    (build_shape_info dim quad fe base).lexicographic_numbering
      = compose_numbering fe.native_to_hierarchic fe.hierarchic_to_lex := rfl

theorem build_face_value (dim : Nat) (quad : List ℚ) (fe : FiniteElement)
    (base : BaseElement) :
    (build_shape_info dim quad fe base).face_value
      = [face_eval base 0, face_eval base 1] := rfl

theorem build_face_gradient (dim : Nat) (quad : List ℚ) (fe : FiniteElement)
    (base : BaseElement) :
    (build_shape_info dim quad fe base).face_gradient
      = [face_grad_eval base 0, face_grad_eval base 1] := rfl

theorem build_subface_value (dim : Nat) (quad : List ℚ) (fe : FiniteElement)
    (base : BaseElement) :
    (build_shape_info dim quad fe base).subface_value
      = [subface_eval base quad 0, subface_eval base quad 1] := rfl

theorem build_shape_value_entry (dim : Nat) (quad : List ℚ) (fe : FiniteElement)
    (base : BaseElement) (i j : Nat) (hi : i < base.degree + 1) (hj : j < quad.length) :
    shape_value_entry (build_shape_info dim quad fe base) i j
      = base.shape_value i (quad.getD j 0) := by
  unfold shape_value_entry
  rw [build_shape_values_number, build_n_q_points_1d,
    table_flat_getD _ _ _ _ _ hi hj]

theorem check_1d_shapes_collocation_iff (N Q : Nat) (v : Nat → Nat → ℚ) :
    check_1d_shapes_collocation N Q v = true ↔
      (N = Q ∧ ∀ i < N, ∀ j < Q, near (v i j) (if i = j then 1 else 0)) := by
  simp [check_1d_shapes_collocation]

theorem detected_colloc_imp (dim : Nat) (quad : List ℚ) (base : BaseElement)
    (h : detected_element_type dim quad base = ElementType.tensor_symmetric_collocation) :
    check_1d_shapes_collocation (base.degree + 1) quad.length
      (fun i q => base.shape_value i (quad.getD q 0)) = true := by
  unfold detected_element_type at h
  by_cases h1 : base.is_truncated = true
  · rw [if_pos h1] at h; exact ElementType.noConfusion h
  · rw [if_neg h1] at h
    by_cases h2 : check_1d_shapes_symmetric (base.degree + 1) quad.length
        (fun i q => base.shape_value i (quad.getD q 0))
        (fun i q => base.shape_grad i (quad.getD q 0)) = true
    · rw [if_pos h2] at h
      by_cases h3 : check_1d_shapes_collocation (base.degree + 1) quad.length
          (fun i q => base.shape_value i (quad.getD q 0)) = true
      · exact h3
      · rw [if_neg h3] at h
        by_cases h4 : base.dofs_total = (base.degree + 1) ^ dim + 1
        · rw [if_pos h4] at h; exact ElementType.noConfusion h
        · rw [if_neg h4] at h
          by_cases h5 : check_1d_shapes_hermite (base.degree + 1) base = true
          · rw [if_pos h5] at h; exact ElementType.noConfusion h
          · rw [if_neg h5] at h; exact ElementType.noConfusion h
    · rw [if_neg h2] at h; exact ElementType.noConfusion h

/-- C1: For every element/quadrature pair, the element type is set to the collocation
variant only if the 1D shape values, read as a square matrix over the (shape function,
quadrature point) index pair, equal the identity matrix within the fixed tolerance;
equivalently, check_1d_shapes_collocation returns true iff that identity-matrix
condition (squareness together with the Kronecker-delta proximity) holds. -/
theorem collocation_classification_requires_identity
    (s0 : ShapeInfo) (dim : Nat) (quad : List ℚ) (fe : FiniteElement) (b : Nat)
    (s : ShapeInfo) (hre : s0.reinit dim quad fe b = Except.ok s) :
    (s.element_type = ElementType.tensor_symmetric_collocation →
      ∀ i < s.fe_degree + 1, ∀ j < s.n_q_points_1d,
        near (shape_value_entry s i j) (if i = j then 1 else 0)) ∧
    (check_1d_shapes_collocation (s.fe_degree + 1) s.n_q_points_1d (shape_value_entry s)
        = true ↔
      (s.fe_degree + 1 = s.n_q_points_1d ∧
        ∀ i < s.fe_degree + 1, ∀ j < s.n_q_points_1d,
          near (shape_value_entry s i j) (if i = j then 1 else 0))) := by
  obtain ⟨base, hb, htp, hq, hz, hs⟩ := reinit_ok_inv hre
  subst hs
  refine ⟨?_, check_1d_shapes_collocation_iff _ _ _⟩
  intro het i hi j hj
  rw [build_element_type] at het
  rw [build_fe_degree] at hi
  rw [build_n_q_points_1d] at hj
  have hc := (check_1d_shapes_collocation_iff _ _ _).mp (detected_colloc_imp dim quad base het)
  rw [build_shape_value_entry dim quad fe base i j hi hj]
  exact hc.2 i hi j hj

theorem eo_flat_vect_ne_nil (N Q : Nat) (f : Nat → Nat → ℚ) (h : N * Q ≠ 0) :
    eo_flat_vect N Q f ≠ [] := by
  intro hnil
  have hlen : (eo_flat_vect N Q f).length = N * Q := by simp [eo_flat_vect]
  rw [hnil] at hlen
  exact h hlen.symm

theorem table_flat_vect_lanes (N Q : Nat) (f : Nat → Nat → ℚ) :
    ∀ x ∈ table_flat_vect N Q f, ∀ l1 l2 : Fin n_lanes, x l1 = x l2 := by
  intro x hx l1 l2
  unfold table_flat_vect at hx
  rw [List.mem_map] at hx
  obtain ⟨idx, _, hxe⟩ := hx
  rw [← hxe]
  rfl

/-- C2: After initialization, the even-odd tables are non-empty iff the element type is
one of the four symmetric variants; for the general and truncated-tensor outcomes they
are empty. -/
theorem even_odd_tables_nonempty_iff_symmetric
    (s0 : ShapeInfo) (dim : Nat) (quad : List ℚ) (fe : FiniteElement) (b : Nat)
    (s : ShapeInfo) (hre : s0.reinit dim quad fe b = Except.ok s) :
    ((s.shape_values_eo ≠ [] ∧ s.shape_gradients_eo ≠ [] ∧ s.shape_hessians_eo ≠ []) ↔
      s.element_type ∈ symmetric_family) ∧
    ((s.element_type = ElementType.tensor_general ∨
        s.element_type = ElementType.truncated_tensor) →
      (s.shape_values_eo = [] ∧ s.shape_gradients_eo = [] ∧ s.shape_hessians_eo = [])) := by
  obtain ⟨base, hb, htp, hq, hz, hs⟩ := reinit_ok_inv hre
  subst hs
  rw [build_shape_values_eo, build_shape_gradients_eo, build_shape_hessians_eo,
    build_element_type]
  have hNQ : (base.degree + 1) * quad.length ≠ 0 := by
    have := hq
    intro hcon
    rcases Nat.mul_eq_zero.mp hcon with h | h
    · omega
    · exact hq h
  constructor
  · by_cases hmem : detected_element_type dim quad base ∈ symmetric_family
    · rw [if_pos hmem, if_pos hmem, if_pos hmem]
      exact iff_of_true
        ⟨eo_flat_vect_ne_nil _ _ _ hNQ, eo_flat_vect_ne_nil _ _ _ hNQ,
          eo_flat_vect_ne_nil _ _ _ hNQ⟩ hmem
    · rw [if_neg hmem, if_neg hmem, if_neg hmem]
      exact iff_of_false (by simp) hmem
  · intro hgen
    have hmem : detected_element_type dim quad base ∉ symmetric_family := by
      rcases hgen with h | h <;> rw [h] <;> decide
    rw [if_neg hmem, if_neg hmem, if_neg hmem]
    exact ⟨rfl, rfl, rfl⟩

/-- Witness for C2 at the concrete symmetric degree-1 pair. -/
theorem even_odd_tables_nonempty_iff_symmetric_witness :
    ((symResult.shape_values_eo ≠ [] ∧ symResult.shape_gradients_eo ≠ [] ∧
        symResult.shape_hessians_eo ≠ []) ↔
      symResult.element_type ∈ symmetric_family) ∧
    ((symResult.element_type = ElementType.tensor_general ∨
        symResult.element_type = ElementType.truncated_tensor) →
      (symResult.shape_values_eo = [] ∧ symResult.shape_gradients_eo = [] ∧
        symResult.shape_hessians_eo = [])) :=
  even_odd_tables_nonempty_iff_symmetric ShapeInfo.initial 1 quadSym feQ1 0 symResult
    (by with_unfolding_all rfl)

/-- C3: For every pair classified plain symmetric, hermite, or symmetric plus
constant, re-expanding the packed even-odd tables back to the dense form through the
inverse of the packing convention reproduces the stored shape values, gradients and
hessians exactly. -/
theorem even_odd_tables_round_trip
    (s0 : ShapeInfo) (dim : Nat) (quad : List ℚ) (fe : FiniteElement) (b : Nat)
    (s : ShapeInfo) (hre : s0.reinit dim quad fe b = Except.ok s)
    (hsym : s.element_type = ElementType.tensor_symmetric ∨
      s.element_type = ElementType.tensor_symmetric_hermite ∨
      s.element_type = ElementType.tensor_symmetric_plus_dg0) :
    ∀ i < s.fe_degree + 1, ∀ q < s.n_q_points_1d,
      (eo_decode (s.fe_degree + 1)
          (fun r q2 => s.shape_values_eo.getD (r * s.n_q_points_1d + q2) (broadcast 0) lane0)
          i q
        = s.shape_values_number.getD (i * s.n_q_points_1d + q) 0) ∧
      (eo_decode (s.fe_degree + 1)
          (fun r q2 => s.shape_gradients_eo.getD (r * s.n_q_points_1d + q2) (broadcast 0) lane0)
          i q
        = s.shape_gradient_number.getD (i * s.n_q_points_1d + q) 0) ∧
      (eo_decode (s.fe_degree + 1)
          (fun r q2 => s.shape_hessians_eo.getD (r * s.n_q_points_1d + q2) (broadcast 0) lane0)
          i q
        = s.shape_hessians.getD (i * s.n_q_points_1d + q) (broadcast 0) lane0) := by
  obtain ⟨base, hb, htp, hq, hz, hs⟩ := reinit_ok_inv hre
  subst hs
  rw [build_element_type] at hsym
  have hmem : detected_element_type dim quad base ∈ symmetric_family := by
    rcases hsym with h | h | h <;> rw [h] <;> decide
  rw [build_fe_degree, build_n_q_points_1d, build_shape_values_eo, build_shape_gradients_eo,
    build_shape_hessians_eo, build_shape_values_number, build_shape_gradient_number,
    build_shape_hessians, if_pos hmem, if_pos hmem, if_pos hmem]
  intro i hi q hqq
  refine ⟨?_, ?_, ?_⟩
  · rw [eo_decode_congr (base.degree + 1) _
        (eo_encode (base.degree + 1) (fun i2 q2 => base.shape_value i2 (quad.getD q2 0))) i q hi
        (fun r hr => by rw [eo_flat_vect_getD _ _ _ _ _ hr hqq]; rfl),
      eo_round_trip _ _ _ _ hi, table_flat_getD _ _ _ _ _ hi hqq]
  · rw [eo_decode_congr (base.degree + 1) _
        (eo_encode (base.degree + 1) (fun i2 q2 => base.shape_grad i2 (quad.getD q2 0))) i q hi
        (fun r hr => by rw [eo_flat_vect_getD _ _ _ _ _ hr hqq]; rfl),
      eo_round_trip _ _ _ _ hi, table_flat_getD _ _ _ _ _ hi hqq]
  · rw [eo_decode_congr (base.degree + 1) _
        (eo_encode (base.degree + 1) (fun i2 q2 => base.shape_hess i2 (quad.getD q2 0))) i q hi
        (fun r hr => by rw [eo_flat_vect_getD _ _ _ _ _ hr hqq]; rfl),
      eo_round_trip _ _ _ _ hi, table_flat_vect_getD _ _ _ _ _ hi hqq]
    rfl

/-- Witness for C3 at the concrete symmetric degree-1 pair, at index pair (0, 0). -/
theorem even_odd_tables_round_trip_witness :
    (eo_decode (symResult.fe_degree + 1)
        (fun r q2 =>
          symResult.shape_values_eo.getD (r * symResult.n_q_points_1d + q2) (broadcast 0) lane0)
        0 0
      = symResult.shape_values_number.getD (0 * symResult.n_q_points_1d + 0) 0) ∧
    (eo_decode (symResult.fe_degree + 1)
        (fun r q2 =>
          symResult.shape_gradients_eo.getD (r * symResult.n_q_points_1d + q2) (broadcast 0) lane0)
        0 0
      = symResult.shape_gradient_number.getD (0 * symResult.n_q_points_1d + 0) 0) ∧
    (eo_decode (symResult.fe_degree + 1)
        (fun r q2 =>
          symResult.shape_hessians_eo.getD (r * symResult.n_q_points_1d + q2) (broadcast 0) lane0)
        0 0
      = symResult.shape_hessians.getD (0 * symResult.n_q_points_1d + 0) (broadcast 0) lane0) :=
  even_odd_tables_round_trip ShapeInfo.initial 1 quadSym feQ1 0 symResult
    (by with_unfolding_all rfl) (Or.inl (by with_unfolding_all rfl))
    0 (Nat.succ_pos _) 0 (by with_unfolding_all decide)

/-- Witness for C1 at the concrete collocated degree-1 pair. -/
theorem collocation_classification_requires_identity_witness :
    (collocResult.element_type = ElementType.tensor_symmetric_collocation →
      ∀ i < collocResult.fe_degree + 1, ∀ j < collocResult.n_q_points_1d,
        near (shape_value_entry collocResult i j) (if i = j then 1 else 0)) ∧
    (check_1d_shapes_collocation (collocResult.fe_degree + 1) collocResult.n_q_points_1d
        (shape_value_entry collocResult) = true ↔
      (collocResult.fe_degree + 1 = collocResult.n_q_points_1d ∧
        ∀ i < collocResult.fe_degree + 1, ∀ j < collocResult.n_q_points_1d,
          near (shape_value_entry collocResult i j) (if i = j then 1 else 0))) :=
  collocation_classification_requires_identity ShapeInfo.initial 1 quadColloc feQ1 0
    collocResult (by with_unfolding_all rfl)

/-- C4: If reinit is given a finite element whose selected base element is not
expressible as a 1D tensor product, initialization fails with the fatal configuration
error and no shape-data record is produced. -/
theorem reinit_non_tensor_product_is_fatal
    (s0 : ShapeInfo) (dim : Nat) (quad : List ℚ) (fe : FiniteElement) (b : Nat)
    (base : BaseElement) (hb : fe.bases[b]? = some base)
    (htp : base.is_tensor_product = false) :
    s0.reinit dim quad fe b = Except.error ConfigError.not_tensor_product ∧
    ∀ s : ShapeInfo, s0.reinit dim quad fe b ≠ Except.ok s := by
  have h : s0.reinit dim quad fe b = Except.error ConfigError.not_tensor_product := by
    unfold ShapeInfo.reinit
    rw [hb]
    dsimp only
    rw [if_pos htp]
  refine ⟨h, fun s hs => ?_⟩
  rw [h] at hs
  exact Except.noConfusion hs

/-- Witness for C4 at the concrete non-tensor-product element. -/
theorem reinit_non_tensor_product_is_fatal_witness :
    ShapeInfo.initial.reinit 2 quadSym feSimplex 0
        = Except.error ConfigError.not_tensor_product ∧
    ∀ s : ShapeInfo, ShapeInfo.initial.reinit 2 quadSym feSimplex 0 ≠ Except.ok s :=
  reinit_non_tensor_product_is_fatal ShapeInfo.initial 2 quadSym feSimplex 0
    simplexBase rfl rfl

/-- C5: For every successfully initialized record, if the two composed mappings are
permutations of the DoF index range then lexicographic_numbering is a permutation of
the index set from 0 to dofs_per_cell: a rearrangement of that range, with no
duplicate, hitting every index, and staying inside the range. -/
theorem lexicographic_numbering_is_permutation
    (s0 : ShapeInfo) (dim : Nat) (quad : List ℚ) (fe : FiniteElement) (b : Nat)
    (s : ShapeInfo) (hre : s0.reinit dim quad fe b = Except.ok s)
    (h1 : List.Perm fe.native_to_hierarchic (List.range s.dofs_per_cell))
    (h2 : List.Perm fe.hierarchic_to_lex (List.range s.dofs_per_cell)) :
    List.Perm s.lexicographic_numbering (List.range s.dofs_per_cell) ∧
    s.lexicographic_numbering.Nodup ∧
    (∀ k < s.dofs_per_cell, k ∈ s.lexicographic_numbering) ∧
    (∀ x ∈ s.lexicographic_numbering, x < s.dofs_per_cell) := by
  obtain ⟨base, hb, htp, hq, hz, hs⟩ := reinit_ok_inv hre
  subst hs
  rw [build_lexicographic_numbering]
  have hp := compose_numbering_perm fe.native_to_hierarchic fe.hierarchic_to_lex
    (build_shape_info dim quad fe base).dofs_per_cell h1 h2
  refine ⟨hp, hp.symm.nodup (List.nodup_range _), ?_, ?_⟩
  · intro k hk
    exact hp.mem_iff.mpr (List.mem_range.mpr hk)
  · intro x hx
    exact List.mem_range.mp (hp.mem_iff.mp hx)

/-- Witness for C5 at the concrete symmetric degree-1 pair with identity mappings. -/
theorem lexicographic_numbering_is_permutation_witness :
    List.Perm symResult.lexicographic_numbering (List.range symResult.dofs_per_cell) ∧
    symResult.lexicographic_numbering.Nodup ∧
    (∀ k < symResult.dofs_per_cell, k ∈ symResult.lexicographic_numbering) ∧
    (∀ x ∈ symResult.lexicographic_numbering, x < symResult.dofs_per_cell) :=
  lexicographic_numbering_is_permutation ShapeInfo.initial 1 quadSym feQ1 0 symResult
    (by with_unfolding_all rfl)
    (by with_unfolding_all exact List.Perm.refl [0, 1])
    (by with_unfolding_all exact List.Perm.refl [0, 1])

/-- C6: For every successfully initialized record, the face_indices table has exactly
2 times dim rows and dofs_per_face columns, and each row consists of pairwise
distinct cell-DoF entries. -/
theorem face_indices_shape_and_distinct
    (s0 : ShapeInfo) (dim : Nat) (quad : List ℚ) (fe : FiniteElement) (b : Nat)
    (s : ShapeInfo) (hre : s0.reinit dim quad fe b = Except.ok s) :
    s.face_indices.length = 2 * dim ∧
    ∀ row ∈ s.face_indices, row.length = s.dofs_per_face ∧ row.Nodup := by
  obtain ⟨base, hb, htp, hq, hz, hs⟩ := reinit_ok_inv hre
  subst hs
  rw [build_face_indices_eq, build_dofs_per_face]
  constructor
  · simp [build_face_indices]
  · intro row hrow
    unfold build_face_indices at hrow
    rw [List.mem_map] at hrow
    obtain ⟨f, hf, hrow⟩ := hrow
    rw [← hrow]
    constructor
    · simp
    · refine List.Nodup.map ?_ (List.nodup_range _)
      refine insertDigit_injective (base.degree + 1) (f / 2) (f % 2 * base.degree)
        (by omega) ?_
      have h2 : f % 2 ≤ 1 := by omega
      have h3 : f % 2 * base.degree ≤ 1 * base.degree := Nat.mul_le_mul_right _ h2
      omega

/-- Witness for C6 at the concrete symmetric degree-1 pair. -/
theorem face_indices_shape_and_distinct_witness :
    symResult.face_indices.length = 2 * 1 ∧
    ∀ row ∈ symResult.face_indices, row.length = symResult.dofs_per_face ∧ row.Nodup :=
  face_indices_shape_and_distinct ShapeInfo.initial 1 quadSym feQ1 0 symResult
    (by with_unfolding_all rfl)

/-- C7: After initialization, the shape value, gradient and hessian arrays each have
length dofs-per-dimension times quadrature points with the quadrature index running
fastest, and every vectorized entry carries the same scalar broadcast across all SIMD
lanes. -/
theorem shape_arrays_layout_and_lane_broadcast
    (s0 : ShapeInfo) (dim : Nat) (quad : List ℚ) (fe : FiniteElement) (b : Nat)
    (s : ShapeInfo) (base : BaseElement)
    (hre : s0.reinit dim quad fe b = Except.ok s) (hb : fe.bases[b]? = some base) :
    (s.shape_values.length = (s.fe_degree + 1) * s.n_q_points_1d ∧
     s.shape_gradients.length = (s.fe_degree + 1) * s.n_q_points_1d ∧
     s.shape_hessians.length = (s.fe_degree + 1) * s.n_q_points_1d) ∧
    (∀ i < s.fe_degree + 1, ∀ q < s.n_q_points_1d,
      s.shape_values.getD (i * s.n_q_points_1d + q) (broadcast 0)
          = broadcast (base.shape_value i (quad.getD q 0)) ∧
      s.shape_gradients.getD (i * s.n_q_points_1d + q) (broadcast 0)
          = broadcast (base.shape_grad i (quad.getD q 0)) ∧
      s.shape_hessians.getD (i * s.n_q_points_1d + q) (broadcast 0)
          = broadcast (base.shape_hess i (quad.getD q 0))) ∧
    ((∀ x ∈ s.shape_values, ∀ l1 l2 : Fin n_lanes, x l1 = x l2) ∧
     (∀ x ∈ s.shape_gradients, ∀ l1 l2 : Fin n_lanes, x l1 = x l2) ∧
     (∀ x ∈ s.shape_hessians, ∀ l1 l2 : Fin n_lanes, x l1 = x l2)) := by
  obtain ⟨base2, hb2, htp, hq, hz, hs⟩ := reinit_ok_inv hre
  rw [hb] at hb2
  injection hb2 with hbeq
  subst hbeq
  subst hs
  rw [build_fe_degree, build_n_q_points_1d, build_shape_values, build_shape_gradients,
    build_shape_hessians]
  refine ⟨⟨table_flat_vect_length _ _ _, table_flat_vect_length _ _ _,
    table_flat_vect_length _ _ _⟩, ?_, table_flat_vect_lanes _ _ _,
    table_flat_vect_lanes _ _ _, table_flat_vect_lanes _ _ _⟩
  intro i hi q hqq
  exact ⟨table_flat_vect_getD _ _ _ _ _ hi hqq, table_flat_vect_getD _ _ _ _ _ hi hqq,
    table_flat_vect_getD _ _ _ _ _ hi hqq⟩

/-- Witness for C7 at the concrete symmetric degree-1 pair. -/
theorem shape_arrays_layout_and_lane_broadcast_witness :
    (symResult.shape_values.length = (symResult.fe_degree + 1) * symResult.n_q_points_1d ∧
     symResult.shape_gradients.length = (symResult.fe_degree + 1) * symResult.n_q_points_1d ∧
     symResult.shape_hessians.length = (symResult.fe_degree + 1) * symResult.n_q_points_1d) ∧
    (∀ i < symResult.fe_degree + 1, ∀ q < symResult.n_q_points_1d,
      symResult.shape_values.getD (i * symResult.n_q_points_1d + q) (broadcast 0)
          = broadcast (lagrange1.shape_value i (quadSym.getD q 0)) ∧
      symResult.shape_gradients.getD (i * symResult.n_q_points_1d + q) (broadcast 0)
          = broadcast (lagrange1.shape_grad i (quadSym.getD q 0)) ∧
      symResult.shape_hessians.getD (i * symResult.n_q_points_1d + q) (broadcast 0)
          = broadcast (lagrange1.shape_hess i (quadSym.getD q 0))) ∧
    ((∀ x ∈ symResult.shape_values, ∀ l1 l2 : Fin n_lanes, x l1 = x l2) ∧
     (∀ x ∈ symResult.shape_gradients, ∀ l1 l2 : Fin n_lanes, x l1 = x l2) ∧
     (∀ x ∈ symResult.shape_hessians, ∀ l1 l2 : Fin n_lanes, x l1 = x l2)) :=
  shape_arrays_layout_and_lane_broadcast ShapeInfo.initial 1 quadSym feQ1 0 symResult
    lagrange1 (by with_unfolding_all rfl) rfl

/-- C8: The initializing constructor establishes element_type equal to tensor_general
before reinit runs; the constructor is exactly reinit applied to that state; the
result of reinit does not depend on the incoming state at all; and on success the
final element_type is exactly the output of the classification cascade. -/
theorem constructor_defaults_element_type_general :
    ShapeInfo.initial.element_type = ElementType.tensor_general ∧
    (∀ (dim : Nat) (quad : List ℚ) (fe : FiniteElement) (b : Nat),
      ShapeInfo.construct dim quad fe b = ShapeInfo.initial.reinit dim quad fe b) ∧
    (∀ (s0 s02 : ShapeInfo) (dim : Nat) (quad : List ℚ) (fe : FiniteElement) (b : Nat),
      s0.reinit dim quad fe b = s02.reinit dim quad fe b) ∧
    (∀ (s0 : ShapeInfo) (dim : Nat) (quad : List ℚ) (fe : FiniteElement) (b : Nat)
        (s : ShapeInfo), s0.reinit dim quad fe b = Except.ok s →
      ∃ base, fe.bases[b]? = some base ∧
        s.element_type = detected_element_type dim quad base) := by
  refine ⟨rfl, fun _ _ _ _ => rfl, fun _ _ _ _ _ _ => rfl, ?_⟩
  intro s0 dim quad fe b s hre
  obtain ⟨base, hb, htp, hq, hz, hs⟩ := reinit_ok_inv hre
  exact ⟨base, hb, by rw [hs, build_element_type]⟩

/-- Witness for C8 at the concrete symmetric degree-1 pair. -/
theorem constructor_defaults_element_type_general_witness :
    ShapeInfo.initial.element_type = ElementType.tensor_general ∧
    ∃ base, feQ1.bases[0]? = some base ∧
      symResult.element_type = detected_element_type 1 quadSym base :=
  ⟨constructor_defaults_element_type_general.1,
    constructor_defaults_element_type_general.2.2.2 ShapeInfo.initial 1 quadSym feQ1 0
      symResult (by with_unfolding_all rfl)⟩

/-- C9 counterexample: the record does not hold four pairs of one-dimensional scalar
face-trace arrays; the fields enumerated by the claim (face_value, face_gradient and
subface_value, each indexed by the two faces) are three pairs, as witnessed on the
concrete symmetric degree-1 record. -/
theorem scalar_face_trace_pairs_not_four :
    (scalar_face_trace_pairs symResult).length ≠ 4 := by
  have h : (scalar_face_trace_pairs symResult).length = 3 := rfl
  omega

/-- C9 amended: the record holds three pairs of one-dimensional scalar non-vectorized
face-trace arrays, comprising face_value and face_gradient evaluated at the interval
endpoints 0 and 1 and subface_value evaluated for the two half-intervals, each pair
indexed by the two faces respectively subfaces. -/
theorem scalar_face_trace_three_pairs
    (s0 : ShapeInfo) (dim : Nat) (quad : List ℚ) (fe : FiniteElement) (b : Nat)
    (s : ShapeInfo) (base : BaseElement)
    (hre : s0.reinit dim quad fe b = Except.ok s) (hb : fe.bases[b]? = some base) :
    (scalar_face_trace_pairs s).length = 3 ∧
    s.face_value.length = 2 ∧ s.face_gradient.length = 2 ∧ s.subface_value.length = 2 ∧
    s.face_value = [face_eval base 0, face_eval base 1] ∧
    s.face_gradient = [face_grad_eval base 0, face_grad_eval base 1] ∧
    s.subface_value = [subface_eval base quad 0, subface_eval base quad 1] := by
  obtain ⟨base2, hb2, htp, hq, hz, hs⟩ := reinit_ok_inv hre
  rw [hb] at hb2
  injection hb2 with hbeq
  subst hbeq
  subst hs
  exact ⟨rfl, rfl, rfl, rfl, build_face_value dim quad fe base,
    build_face_gradient dim quad fe base, build_subface_value dim quad fe base⟩

/-- Witness for the amended C9 at the concrete symmetric degree-1 pair. -/
theorem scalar_face_trace_three_pairs_witness :
    (scalar_face_trace_pairs symResult).length = 3 ∧
    symResult.face_value.length = 2 ∧ symResult.face_gradient.length = 2 ∧
    symResult.subface_value.length = 2 ∧
    symResult.face_value = [face_eval lagrange1 0, face_eval lagrange1 1] ∧
    symResult.face_gradient = [face_grad_eval lagrange1 0, face_grad_eval lagrange1 1] ∧
    symResult.subface_value = [subface_eval lagrange1 quadSym 0, subface_eval lagrange1 quadSym 1] :=
  scalar_face_trace_three_pairs ShapeInfo.initial 1 quadSym feQ1 0 symResult lagrange1
    (by with_unfolding_all rfl) rfl

/-- C10: reinit imposes, beyond the tensor-product requirement, the documented
assumption that the zeroth 1D shape function of the selected base element evaluates to
one at zero: every successful initialization satisfies it, and a tensor-product
element violating it aborts with a configuration error rather than initializing. -/
theorem reinit_assumes_zeroth_shape_value_one :
    (∀ (s0 : ShapeInfo) (dim : Nat) (quad : List ℚ) (fe : FiniteElement) (b : Nat)
        (s : ShapeInfo) (base : BaseElement),
      s0.reinit dim quad fe b = Except.ok s → fe.bases[b]? = some base →
        near (base.shape_value 0 0) 1) ∧
    (∀ (s0 : ShapeInfo) (dim : Nat) (quad : List ℚ) (fe : FiniteElement) (b : Nat)
        (base : BaseElement),
      fe.bases[b]? = some base → base.is_tensor_product = true → quad.length ≠ 0 →
      ¬ near (base.shape_value 0 0) 1 →
        s0.reinit dim quad fe b = Except.error ConfigError.zeroth_shape_not_one) := by
  constructor
  · intro s0 dim quad fe b s base hre hb
    obtain ⟨base2, hb2, htp, hq, hz, hs⟩ := reinit_ok_inv hre
    rw [hb] at hb2
    injection hb2 with hbeq
    rw [hbeq]
    exact hz
  · intro s0 dim quad fe b base hb htp hq hz
    unfold ShapeInfo.reinit
    rw [hb]
    dsimp only
    rw [if_neg (by simp [htp]), if_neg hq, if_pos hz]

/-- Witness for C10 at the concrete element violating the zeroth-shape assumption. -/
theorem reinit_assumes_zeroth_shape_value_one_witness :
    ShapeInfo.initial.reinit 1 quadSym feBadZeroth 0
      = Except.error ConfigError.zeroth_shape_not_one :=
  reinit_assumes_zeroth_shape_value_one.2 ShapeInfo.initial 1 quadSym feBadZeroth 0
    badZerothBase rfl rfl (by decide) (by with_unfolding_all decide)

end MatrixFreeVerify
